import Mathlib

/-!
Verification development for the shipment-data validation pipeline
(`etl_report_transport.py`).  The pipeline loads a tabular row store,
runs six field cleaners and six field validators over it, aggregates the
defects into a two-level error report and finally runs a policy gate that
raises a pipeline-failure signal when any critical defect is present.

The embedding below translates the pandas data-frame operations into
operations on a `List Row`, where every cell is a `Cell` value (a string,
a rational number, a date, or the missing sentinel that stands for pandas
NaN / NaT / None).  The pandas index of a loaded frame is the default
0-based range index, so row positions are modelled positionally.
-/

/-! ### Python string primitives -/

/-- Whitespace predicate used by the Python `str.strip` model. -/
def wsp (c : Char) : Bool := c.isWhitespace

/-- Left strip on a character list (Python `lstrip`). -/
def lstripL (l : List Char) : List Char := l.dropWhile wsp

/-- Right strip on a character list (Python `rstrip`). -/
def rstripL (l : List Char) : List Char := (l.reverse.dropWhile wsp).reverse

/-- Python `str.strip` model: trim of surrounding whitespace. -/
def pyStrip (s : String) : String := String.mk (lstripL (rstripL s.data))

/-- ASCII upper-casing of one character, as Python `str.upper` does for the
characters appearing in this development. -/
def upChar (c : Char) : Char :=
  if 97 ≤ c.toNat ∧ c.toNat ≤ 122 then Char.ofNat (c.toNat - 32) else c

/-- ASCII lower-casing of one character, as Python `str.lower` does for the
characters appearing in this development. -/
def lowChar (c : Char) : Char :=
  if 65 ≤ c.toNat ∧ c.toNat ≤ 90 then Char.ofNat (c.toNat + 32) else c

/-- Python `str.upper` model. -/
def pyUpper (s : String) : String := String.mk (s.data.map upChar)

/-- Python `str.lower` model. -/
def pyLower (s : String) : String := String.mk (s.data.map lowChar)

/-! ### Dates and cells -/

/-- A calendar date (the time-of-day component of pandas timestamps plays no
role in the claims, so dates are modelled at day granularity). -/
structure Date where
  year : Nat
  month : Nat
  day : Nat
deriving DecidableEq, Repr

/-- Order key of a date; for the month and day ranges produced by the parser
this agrees with chronological order. -/
def Date.key (d : Date) : Nat := d.year * 10000 + d.month * 100 + d.day

/-- One cell of the row store: a string, a numeric value, a timestamp, or
the missing sentinel (pandas NaN / NaT / None). -/
inductive Cell where
  | str (s : String)
  | num (q : ℚ)
  | date (d : Date)
  | missing
deriving DecidableEq, Repr

/-- One row of the row store, with the columns read from the input file plus
the derived and shadow columns the cleaners add (`Weight_raw`, `Ship Start`,
`Ship End`, `Delivery Start`, `Delivery End`); before the corresponding
cleaner runs a derived column holds the missing sentinel. -/
structure Row where
  primaryReference : Cell
  status : Cell
  weight : Cell
  weightRaw : Cell
  createBy : Cell
  createDate : Cell
  originState : Cell
  destState : Cell
  originName : Cell
  destName : Cell
  originCity : Cell
  destCity : Cell
  targetShipRange : Cell
  targetDeliveryRange : Cell
  shipStart : Cell
  shipEnd : Cell
  deliveryStart : Cell
  deliveryEnd : Cell
deriving DecidableEq, Repr

/-- A row whose every cell is missing. -/
def defaultRow : Row :=
  { primaryReference := .missing, status := .missing, weight := .missing
    weightRaw := .missing, createBy := .missing, createDate := .missing
    originState := .missing, destState := .missing, originName := .missing
    destName := .missing, originCity := .missing, destCity := .missing
    targetShipRange := .missing, targetDeliveryRange := .missing
    shipStart := .missing, shipEnd := .missing
    deliveryStart := .missing, deliveryEnd := .missing }

instance : Inhabited Row := ⟨defaultRow⟩

/-! ### Scalar conversions used by the cleaners -/

/-- Decimal string of a natural number, zero padded to two digits. -/
def pad2 (n : Nat) : String := if n < 10 then "0" ++ toString n else toString n

/-- Python `str` of a timestamp, as pandas prints midnight timestamps. -/
def dateToPyStr (d : Date) : String :=
  toString d.year ++ "-" ++ pad2 d.month ++ "-" ++ pad2 d.day ++ " 00:00:00"

/-- Python `str` of a float for the float values arising here: an integral
float prints with a trailing `.0`. -/
def qToPyStr (q : ℚ) : String :=
  if q.den = 1 then toString q.num ++ ".0" else toString q

/-- Python `str` of a cell, as pandas `astype(str)` renders object cells;
the missing sentinel prints as the string nan. -/
def cellToPyStr : Cell → String
  | .str s => s
  | .num q => qToPyStr q
  | .date d => dateToPyStr d
  | .missing => "nan"

/-- Splitting a character list on every occurrence of a separator
character (the Python `str.split(sep)` behavior for a one-character
separator: an empty input yields one empty part, and n separator
occurrences yield n + 1 parts). -/
def splitOnChar (sep : Char) : List Char → List (List Char)
  | [] => [[]]
  | c :: rest =>
      match splitOnChar sep rest with
      | [] => [[]]
      | h :: t => if c = sep then [] :: h :: t else (c :: h) :: t

/-- Numeric value of a run of decimal digit characters. -/
def natOfDigits : List Char → Nat → Nat
  | [], acc => acc
  | c :: r, acc => natOfDigits r (acc * 10 + (c.toNat - 48))

/-- True when the character list is nonempty and all digits. -/
def allDigitsL (l : List Char) : Bool := l != [] && l.all Char.isDigit

/-- Model of pandas `pd.to_numeric(..., errors="coerce")` applied to a
string: an optional leading minus sign, digits, and an optional fractional
part parse to a rational; everything else coerces to the missing sentinel. -/
def parseDecimal (s : String) : Cell :=
  let core : List Char → Cell := fun body =>
    match splitOnChar '.' body with
    | [ip] => if allDigitsL ip then .num (mkRat (natOfDigits ip 0) 1) else .missing
    | [ip, fp] =>
        if allDigitsL ip && allDigitsL fp then
          .num (mkRat (natOfDigits ip 0 * 10 ^ fp.length + natOfDigits fp 0)
            (10 ^ fp.length))
        else .missing
    | _ => .missing
  match s.data with
  | '-' :: rest =>
      (match core rest with
       | .num q => .num (-q)
       | _ => .missing)
  | l => core l

/-- Model of pandas `pd.to_datetime(..., errors="coerce")` string parsing
for the string shapes that occur in this development: an ISO `YYYY-MM-DD`
date parses to that date, a bare four-digit year parses to January 1st of
that year, and a bare zero-padded two-digit token is read by the pandas
format-inference step with a day-of-month format and parses to 1900-01-day.
Every other string coerces to the missing sentinel. -/
def parseDateString (s : String) : Cell :=
  match splitOnChar '-' s.data with
  | [y, m, d] =>
      if y.length = 4 && m.length = 2 && d.length = 2
          && allDigitsL y && allDigitsL m && allDigitsL d
          && 1 ≤ natOfDigits m 0 && natOfDigits m 0 ≤ 12
          && 1 ≤ natOfDigits d 0 && natOfDigits d 0 ≤ 31 then
        .date ⟨natOfDigits y 0, natOfDigits m 0, natOfDigits d 0⟩
      else .missing
  | [t] =>
      if t.length = 4 && allDigitsL t then .date ⟨natOfDigits t 0, 1, 1⟩
      else if t.length = 2 && allDigitsL t
          && 1 ≤ natOfDigits t 0 && natOfDigits t 0 ≤ 31 then
        .date ⟨1900, 1, natOfDigits t 0⟩
      else .missing
  | _ => .missing

/-- Model of `pd.to_datetime(..., errors="coerce")` on one cell: timestamps
pass through, strings are parsed, and everything else coerces to the
missing sentinel. -/
def toDatetime : Cell → Cell
  | .date d => .date d
  | .str s => parseDateString s
  | _ => .missing

/-- Model of a pandas `.str` accessor method: the function applies to string
cells and every other cell (including missing) becomes missing. -/
def strAccessor (f : String → String) : Cell → Cell
  | .str s => .str (f s)
  | _ => .missing

/-! ### Field cleaners (`clean_*` functions of the source) -/

/-- Row part of source `clean_primary_reference`. -/
def cleanPrimaryRow (r : Row) : Row :=
  { r with primaryReference := strAccessor pyStrip r.primaryReference }

/-- Source `clean_primary_reference`: trims surrounding whitespace from the
Primary Reference column via the `.str.strip()` accessor. -/
def clean_primary_reference (df : List Row) : List Row := df.map cleanPrimaryRow

/-- Model of the `str.replace(",", "")` comma removal: drops every comma
character of the string. -/
def stripCommas (s : String) : String :=
  String.mk (s.data.filter fun c => c != ',')

/-- Row part of source `clean_weight`: the raw weight is preserved in the
shadow column, the textual form loses its comma separators via
`str.replace(",", "")` (modelled by `stripCommas`), and the result is
coerced with `pd.to_numeric(..., errors="coerce")`. -/
def clean_weight_row (r : Row) : Row :=
  { r with
    weightRaw := r.weight
    weight := parseDecimal (stripCommas (cellToPyStr r.weight)) }

/-- Source `clean_weight` over the whole store. -/
def clean_weight (df : List Row) : List Row := df.map clean_weight_row

/-- Row part of source `clean_create_date`. -/
def cleanDateRow (r : Row) : Row := { r with createDate := toDatetime r.createDate }

/-- Source `clean_create_date`: parses the Create Date column with
`pd.to_datetime(..., errors="coerce")`. -/
def clean_create_date (df : List Row) : List Row := df.map cleanDateRow

/-- Row part of source `clean_states`. -/
def cleanStatesRow (r : Row) : Row :=
  { r with
    originState := strAccessor pyUpper (strAccessor pyStrip r.originState)
    destState := strAccessor pyUpper (strAccessor pyStrip r.destState) }

/-- Source `clean_states`: trims and upper-cases the two jurisdiction-code
columns via the `.str` accessor. -/
def clean_states (df : List Row) : List Row := df.map cleanStatesRow

/-- Parts of a range cell under `.str.split("-")`: a string cell splits on
every hyphen occurrence; a non-string cell contributes no parts. -/
def splitParts : Cell → List String
  | .str s => (splitOnChar '-' s.data).map String.mk
  | _ => []

/-- Number of columns a cell contributes to the `expand=True` split frame:
a missing (or non-string) cell still occupies one all-missing column. -/
def splitWidth : Cell → Nat
  | .str s => (splitOnChar '-' s.data).length
  | _ => 1

/-- Column `i` of the `expand=True` split frame at one row: the i-th part
when it exists, otherwise the missing sentinel (pandas pads with None). -/
def splitCol (c : Cell) (i : Nat) : Cell :=
  match (splitParts c).get? i with
  | some s => .str s
  | none => .missing

/-- Width of the ship split frame: the maximum part count over all rows. -/
def shipWidth (df : List Row) : Nat :=
  (df.map fun r => splitWidth r.targetShipRange).foldr max 0

/-- Width of the delivery split frame. -/
def delWidth (df : List Row) : Nat :=
  (df.map fun r => splitWidth r.targetDeliveryRange).foldr max 0

/-- Row part of source `clean_ship_and_delivery_ranges`: the derived range
columns are the first two split parts of each range string, parsed as
dates. -/
def cleanRangesRow (r : Row) : Row :=
  { r with
    shipStart := toDatetime (splitCol r.targetShipRange 0)
    shipEnd := toDatetime (splitCol r.targetShipRange 1)
    deliveryStart := toDatetime (splitCol r.targetDeliveryRange 0)
    deliveryEnd := toDatetime (splitCol r.targetDeliveryRange 1) }

/-- Source `clean_ship_and_delivery_ranges`: splits the two range columns
with `.str.split("-", expand=True)` and parses columns 0 and 1 of each
split frame.  Accessing column 0 or 1 of a split frame that is narrower
raises a `KeyError`, modelled as the error case. -/
def clean_ship_and_delivery_ranges (df : List Row) : Except String (List Row) :=
  if shipWidth df < 1 then .error "KeyError: 0"
  else if shipWidth df < 2 then .error "KeyError: 1"
  else if delWidth df < 1 then .error "KeyError: 0"
  else if delWidth df < 2 then .error "KeyError: 1"
  else .ok (df.map cleanRangesRow)

/-- Cell part of source `clean_text_columns`: `astype(str)` followed by
`.str.strip().str.upper()`. -/
def cleanTextCell (c : Cell) : Cell := .str (pyUpper (pyStrip (cellToPyStr c)))

/-- Row part of source `clean_text_columns`. -/
def cleanTextRow (r : Row) : Row :=
  { r with
    originName := cleanTextCell r.originName
    destName := cleanTextCell r.destName
    originCity := cleanTextCell r.originCity
    destCity := cleanTextCell r.destCity }

/-- Source `clean_text_columns` over the four free-text columns. -/
def clean_text_columns (df : List Row) : List Row := df.map cleanTextRow

/-! ### Defects and `build_error` -/

/-- One aggregated defect: the affected-row count and the reported
positions (source `build_error` dictionary). -/
structure ErrorData where
  count : Nat
  indices : List Nat
deriving DecidableEq, Repr

/-- Positions reported by `build_error`: the store is traversed with its
0-based pandas range index and every row where the mask holds contributes
its index plus 2. -/
def maskIdx (mask : Row → Bool) : List Row → Nat → List Nat
  | [], _ => []
  | r :: t, i =>
      if mask r then (i + 2) :: maskIdx mask t (i + 1) else maskIdx mask t (i + 1)

/-- Source `build_error`: the count is the number of rows where the mask
holds and the indices are the matching 0-based positions shifted by 2. -/
def build_error (df : List Row) (mask : Row → Bool) : ErrorData :=
  { count := (maskIdx mask df 0).length, indices := maskIdx mask df 0 }

/-- The `mask.any()` guard of the source validators. -/
def anyRow (df : List Row) (mask : Row → Bool) : Bool := df.any mask

/-- Conditional single-entry defect map, modelling the
`if mask.any(): errors[kind] = build_error(df, mask)` idiom. -/
def entryIf (df : List Row) (kind : String) (mask : Row → Bool) :
    List (String × ErrorData) :=
  if anyRow df mask then [(kind, build_error df mask)] else []

/-! ### Field validators (`validate_*` functions of the source) -/

/-- Null mask of the Primary Reference column. -/
def nullPrimaryMask (r : Row) : Bool := r.primaryReference == Cell.missing

/-- Empty-string mask of the Primary Reference column (pandas `== ""` is
false on the missing sentinel). -/
def emptyPrimaryMask (r : Row) : Bool := r.primaryReference == Cell.str ""

/-- Duplicate mask of the Primary Reference column, modelling pandas
`duplicated(keep=False)`: a row is flagged when its identifier value occurs
in at least two rows; pandas hashing treats missing values as equal to each
other. -/
def dupPrimaryMask (df : List Row) (r : Row) : Bool :=
  decide (2 ≤ df.countP fun p => p.primaryReference == r.primaryReference)

/-- Source `validate_primary_reference`. -/
def validate_primary_reference (df : List Row) : List (String × ErrorData) :=
  entryIf df "null_primary_reference" nullPrimaryMask
    ++ entryIf df "empty_primary_reference" emptyPrimaryMask
    ++ entryIf df "duplicate_primary_reference" (dupPrimaryMask df)

/-- Invalid-status mask: `~isin({"Booked", "In Transit"})`, which also
flags missing and non-string cells. -/
def invalidStatusMask (r : Row) : Bool :=
  !(r.status == Cell.str "Booked" || r.status == Cell.str "In Transit")

/-- Source `validate_status`. -/
def validate_status (df : List Row) : List (String × ErrorData) :=
  entryIf df "invalid_status" invalidStatusMask

/-- Numeric comparison of a cell against a constant, false on every
non-numeric cell (pandas comparisons with NaN are false). -/
def numGe (c : Cell) (q : ℚ) : Bool :=
  match c with
  | .num x => decide (q ≤ x)
  | _ => false

/-- Numeric less-or-equal comparison, false on non-numeric cells. -/
def numLe (c : Cell) (q : ℚ) : Bool :=
  match c with
  | .num x => decide (x ≤ q)
  | _ => false

/-- Source `OVERWEIGHT_USERS` exemption set. -/
def OVERWEIGHT_USERS : List String :=
  ["overweight_ops_1@company.com", "overweight_ops_2@company.com",
   "overweight_ops_3@company.com", "overweight_ops_4@company.com"]

/-- Overweight mask of source `validate_overweight`: cleaned weight of at
least 49000 and a creator identity that, rendered as a string, trimmed and
lower-cased, is not in the exemption set. -/
def overweightMask (users : List String) (r : Row) : Bool :=
  numGe r.weight 49000
    && !(users.contains (pyLower (pyStrip (cellToPyStr r.createBy))))

/-- Source `validate_overweight`. -/
def validate_overweight (df : List Row) (users : List String) :
    Option ErrorData :=
  if anyRow df (overweightMask users) then
    some (build_error df (overweightMask users))
  else none

/-- Null mask of the cleaned Weight column. -/
def nullWeightMask (r : Row) : Bool := r.weight == Cell.missing

/-- Mask of source `invalid_weight_format`: raw weight present but cleaned
weight missing. -/
def invalidWeightFormatMask (r : Row) : Bool :=
  !(r.weightRaw == Cell.missing) && r.weight == Cell.missing

/-- Mask of source `non_positive`: cleaned weight of at most zero. -/
def nonPositiveMask (r : Row) : Bool := numLe r.weight 0

/-- Source `validate_weight`, including the nested `validate_overweight`
call with the fixed exemption set. -/
def validate_weight (df : List Row) : List (String × ErrorData) :=
  entryIf df "null_weight" nullWeightMask
    ++ entryIf df "invalid_weight_format" invalidWeightFormatMask
    ++ entryIf df "non_positive" nonPositiveMask
    ++ (match validate_overweight df OVERWEIGHT_USERS with
        | some e => [("overweight", e)]
        | none => [])

/-- Date comparison of a cell against a constant date, false on every
non-timestamp cell (pandas comparisons with NaT are false). -/
def dateLtConst (c : Cell) (d : Date) : Bool :=
  match c with
  | .date x => decide (x.key < d.key)
  | _ => false

/-- Strictly-after comparison of a cell against a constant date. -/
def dateGtConst (c : Cell) (d : Date) : Bool :=
  match c with
  | .date x => decide (d.key < x.key)
  | _ => false

/-- Null mask of the cleaned Create Date column. -/
def nullDateMask (r : Row) : Bool := r.createDate == Cell.missing

/-- Fixed cutoff `datetime(2020, 1, 1)` of the source. -/
def tooOldCutoff : Date := ⟨2020, 1, 1⟩

/-- Mask of source `too_old`: cleaned date strictly before the cutoff. -/
def tooOldMask (r : Row) : Bool := dateLtConst r.createDate tooOldCutoff

/-- Source `validate_create_date`; the current processing time of
`datetime.now()` is passed as the `now` parameter. -/
def validate_create_date (now : Date) (df : List Row) :
    List (String × ErrorData) :=
  entryIf df "null_date" nullDateMask
    ++ entryIf df "future_date" (fun r => dateGtConst r.createDate now)
    ++ entryIf df "too_old" tooOldMask

/-- Source `us_states` set. -/
def usStates : List String :=
  ["AL", "AK", "AZ", "AR", "CA", "CO", "CT", "DE", "FL", "GA",
   "HI", "ID", "IL", "IN", "IA", "KS", "KY", "LA", "ME", "MD",
   "MA", "MI", "MN", "MS", "MO", "MT", "NE", "NV", "NH", "NJ",
   "NM", "NY", "NC", "ND", "OH", "OK", "OR", "PA", "RI", "SC",
   "SD", "TN", "TX", "UT", "VT", "VA", "WA", "WV", "WI", "WY"]

/-- Source `canadian_provinces` set. -/
def canadianProvinces : List String :=
  ["AB", "BC", "MB", "NB", "NL", "NS", "ON", "PE", "QC", "SK",
   "NT", "NU", "YT"]

/-- Invalid-state mask: `~isin(valid_states)`, which also flags missing
and non-string cells. -/
def invalidStateMask (c : Cell) : Bool :=
  match c with
  | .str s => !((usStates ++ canadianProvinces).contains s)
  | _ => true

/-- Bad-length mask: `.str.len() != 2`; on a missing or non-string cell the
length is NaN and the inequality comparison holds. -/
def badLenMask (c : Cell) : Bool :=
  match c with
  | .str s => decide (s.length ≠ 2)
  | _ => true

/-- Source `validate_states`. -/
def validate_states (df : List Row) : List (String × ErrorData) :=
  entryIf df "origin_null" (fun r => r.originState == Cell.missing)
    ++ entryIf df "dest_null" (fun r => r.destState == Cell.missing)
    ++ entryIf df "origin_invalid" (fun r => invalidStateMask r.originState)
    ++ entryIf df "dest_invalid" (fun r => invalidStateMask r.destState)
    ++ entryIf df "origin_length" (fun r => badLenMask r.originState)
    ++ entryIf df "dest_length" (fun r => badLenMask r.destState)

/-- Strict order comparison between two date cells, false whenever either
side is not a timestamp (pandas comparisons with NaT are false). -/
def dateLtCell (a b : Cell) : Bool :=
  match a, b with
  | .date x, .date y => decide (x.key < y.key)
  | _, _ => false

/-- Null mask of the derived ship range columns. -/
def nullShipMask (r : Row) : Bool :=
  r.shipStart == Cell.missing || r.shipEnd == Cell.missing

/-- Null mask of the derived delivery range columns. -/
def nullDeliveryMask (r : Row) : Bool :=
  r.deliveryStart == Cell.missing || r.deliveryEnd == Cell.missing

/-- Mask of source `ship_start_after_end`. -/
def shipOrderMask (r : Row) : Bool := dateLtCell r.shipEnd r.shipStart

/-- Mask of source `delivery_start_after_end`. -/
def deliveryOrderMask (r : Row) : Bool := dateLtCell r.deliveryEnd r.deliveryStart

/-- Mask of source `delivery_before_shipping`. -/
def deliveryBeforeShipMask (r : Row) : Bool :=
  dateLtCell r.deliveryStart r.shipStart

/-- Source `validate_ship_and_delivery_ranges`. -/
def validate_ship_and_delivery_ranges (df : List Row) :
    List (String × ErrorData) :=
  entryIf df "null_ship_dates" nullShipMask
    ++ entryIf df "null_delivery_dates" nullDeliveryMask
    ++ entryIf df "ship_start_after_end" shipOrderMask
    ++ entryIf df "delivery_start_after_end" deliveryOrderMask
    ++ entryIf df "delivery_before_shipping" deliveryBeforeShipMask

/-! ### Error aggregation and the policy gate -/

/-- An aggregated error report: domain name to defect-kind map, in
insertion order (Python dictionaries preserve insertion order). -/
def Report := List (String × List (String × ErrorData))

/-- Source `CRITICAL_ERRORS` set. -/
def CRITICAL_ERRORS : List String :=
  ["null_weight", "null_date", "future_date", "duplicate_primary_reference",
   "null_primary_reference", "empty_primary_reference"]

/-- The `critical_found` list of source `enforce_policy`: every
(domain, kind, count) triple whose kind is critical, in encounter order of
the nested iteration. -/
def collectCritical : List (String × List (String × ErrorData)) →
    List (String × String × Nat)
  | [] => []
  | (dom, errs) :: rest =>
      (errs.filterMap fun p =>
        if CRITICAL_ERRORS.contains p.1 then some (dom, p.1, p.2.count) else none)
        ++ collectCritical rest

/-- Message formatting of one critical triple in the failure summary. -/
def criticalPart (t : String × String × Nat) : String :=
  t.1 ++ "." ++ t.2.1 ++ " (" ++ toString t.2.2 ++ " rows)"

/-- Source `enforce_policy`: raises a `ValueError` (the error case) when
any critical defect is present, with the comma-joined summary of every
critical triple; otherwise returns normally, leaving the report untouched
(the function only reads its argument). -/
def enforce_policy (allErrors : List (String × List (String × ErrorData))) :
    Except String Unit :=
  if collectCritical allErrors = [] then .ok ()
  else .error ("Pipeline failed due to critical errors: "
      ++ String.intercalate ", " ((collectCritical allErrors).map criticalPart))

/-- Source `main` without the loader and the observability sink: cleaners
and validators run in the fixed order of the source, the six domain maps
are aggregated in insertion order, and the policy gate is applied; the
error case carries either the range-cleaner failure or the policy-gate
signal. -/
def buildReport (now : Date) (df : List Row) :
    Except String (List (String × List (String × ErrorData))) :=
  let df1 := clean_primary_reference df
  let referenceErrors := validate_primary_reference df1
  let df2 := clean_weight df1
  let weightErrors := validate_weight df2
  let df3 := clean_create_date df2
  let dateErrors := validate_create_date now df3
  let statusErrors := validate_status df3
  let df4 := clean_states df3
  let stateErrors := validate_states df4
  match clean_ship_and_delivery_ranges df4 with
  | .error e => .error e
  | .ok df5 =>
      let rangeErrors := validate_ship_and_delivery_ranges df5
      .ok [("primary_reference", referenceErrors), ("weight", weightErrors),
           ("create_date", dateErrors), ("status", statusErrors),
           ("states", stateErrors), ("ranges", rangeErrors)]

/-! ### String toolkit lemmas -/

/-- Dropping a prefix satisfying a predicate is idempotent. -/
theorem dropWhile_idem {α : Type} (p : α → Bool) (l : List α) :
    (l.dropWhile p).dropWhile p = l.dropWhile p := by
  induction l with
  | nil => rfl
  | cons a t ih =>
      by_cases h : p a
      · simp [List.dropWhile_cons, h, ih]
      · simp [List.dropWhile_cons, h]

/-- Left strip is idempotent. -/
theorem lstripL_idem (l : List Char) : lstripL (lstripL l) = lstripL l :=
  dropWhile_idem wsp l

/-- Right strip is idempotent. -/
theorem rstripL_idem (l : List Char) : rstripL (rstripL l) = rstripL l := by
  simp [rstripL, List.reverse_reverse, dropWhile_idem]

/-- A list whose head does not satisfy the predicate is fixed by
`dropWhile`. -/
theorem dropWhile_eq_self_of_head {α : Type} (p : α → Bool) (l : List α)
    (h : ∀ a, l.head? = some a → p a = false) : l.dropWhile p = l := by
  cases l with
  | nil => rfl
  | cons a t => simp [List.dropWhile_cons, h a rfl]

/-- The last element of a right-stripped list is not whitespace. -/
theorem rstripL_getLast (l : List Char) (a : Char)
    (h : (rstripL l).getLast? = some a) : wsp a = false := by
  have h2 : (l.reverse.dropWhile wsp).head? = some a := by
    rw [rstripL, List.getLast?_reverse] at h
    exact h
  have h3 := List.head?_dropWhile_not wsp l.reverse
  rw [h2] at h3
  exact h3

/-- A nonempty suffix has the same last element as the full list. -/
theorem getLast_eq_of_suffix {α : Type} {l₁ l₂ : List α} (h : l₁ <:+ l₂)
    (hne : l₁ ≠ []) : l₂.getLast? = l₁.getLast? := by
  obtain ⟨t, rfl⟩ := h
  exact List.getLast?_append_of_ne_nil t hne

/-- A list whose last element is not whitespace is fixed by right strip. -/
theorem rstripL_eq_self (l : List Char)
    (h : ∀ a, l.getLast? = some a → wsp a = false) : rstripL l = l := by
  rw [rstripL, dropWhile_eq_self_of_head wsp l.reverse, List.reverse_reverse]
  intro a ha
  rw [List.head?_reverse] at ha
  exact h a ha

/-- Right strip fixes a left-stripped list whose last element is already
clean. -/
theorem rstripL_lstripL (w : List Char)
    (hw : ∀ a, w.getLast? = some a → wsp a = false) :
    rstripL (lstripL w) = lstripL w := by
  cases heq : lstripL w with
  | nil => rfl
  | cons a t =>
      rw [← heq]
      apply rstripL_eq_self
      intro b hb
      have hsuf : lstripL w <:+ w := List.dropWhile_suffix wsp
      have hne : lstripL w ≠ [] := by rw [heq]; exact List.cons_ne_nil a t
      have hlast : w.getLast? = (lstripL w).getLast? := getLast_eq_of_suffix hsuf hne
      exact hw b (hlast.trans hb)

/-- Two-sided strip of a character list is idempotent. -/
theorem strip_idemL (l : List Char) :
    lstripL (rstripL (lstripL (rstripL l))) = lstripL (rstripL l) := by
  rw [rstripL_lstripL (rstripL l) (rstripL_getLast l), lstripL_idem]

/-- Python strip is idempotent. -/
theorem pyStrip_idem (s : String) : pyStrip (pyStrip s) = pyStrip s :=
  congrArg String.mk (strip_idemL s.data)

/-- ASCII upper-casing of a character is idempotent. -/
theorem upChar_upChar (c : Char) : upChar (upChar c) = upChar c := by
  unfold upChar
  by_cases h : 97 ≤ c.toNat ∧ c.toNat ≤ 122
  · have hf : ¬ (97 ≤ (Char.ofNat (c.toNat - 32)).toNat
        ∧ (Char.ofNat (c.toNat - 32)).toNat ≤ 122) := by
      obtain ⟨h1, h2⟩ := h
      set n := c.toNat with hn
      interval_cases n <;> decide
    rw [if_pos h, if_neg hf]
  · rw [if_neg h, if_neg h]

/-- Upper-casing does not change whether a character is whitespace. -/
theorem wsp_upChar (c : Char) : wsp (upChar c) = wsp c := by
  unfold upChar
  by_cases h : 97 ≤ c.toNat ∧ c.toNat ≤ 122
  · rw [if_pos h, ← Char.ofNat_toNat c]
    obtain ⟨h1, h2⟩ := h
    set n := c.toNat with hn
    interval_cases n <;> decide
  · rw [if_neg h]

/-- Upper-casing commutes with dropping leading whitespace. -/
theorem dropWhile_wsp_map_upChar (l : List Char) :
    (l.map upChar).dropWhile wsp = (l.dropWhile wsp).map upChar := by
  have hfun : (wsp ∘ upChar) = wsp := funext wsp_upChar
  rw [List.dropWhile_map, hfun]

/-- Upper-casing commutes with two-sided strip. -/
theorem strip_map_upChar (l : List Char) :
    lstripL (rstripL (l.map upChar)) = (lstripL (rstripL l)).map upChar := by
  unfold lstripL rstripL
  rw [← List.map_reverse, dropWhile_wsp_map_upChar, ← List.map_reverse,
    dropWhile_wsp_map_upChar]

/-- Upper-casing a character list is idempotent. -/
theorem map_upChar_idem (l : List Char) :
    (l.map upChar).map upChar = l.map upChar := by
  rw [List.map_map]
  apply List.map_congr_left
  intro a _
  exact upChar_upChar a

/-- Strip-then-upper on a character list is idempotent. -/
theorem upper_strip_idemL (l : List Char) :
    (lstripL (rstripL ((lstripL (rstripL l)).map upChar))).map upChar
      = (lstripL (rstripL l)).map upChar := by
  rw [strip_map_upChar, strip_idemL, map_upChar_idem]

/-- Python upper-after-strip is idempotent as a string transformation. -/
theorem pyUpper_pyStrip_fixed (s : String) :
    pyUpper (pyStrip (pyUpper (pyStrip s))) = pyUpper (pyStrip s) :=
  congrArg String.mk (upper_strip_idemL s.data)

/-! ### Cell-level cleaner lemmas -/

/-- The strip accessor is idempotent on every cell. -/
theorem strAccessor_pyStrip_idem (c : Cell) :
    strAccessor pyStrip (strAccessor pyStrip c) = strAccessor pyStrip c := by
  cases c <;> simp [strAccessor, pyStrip_idem]

/-- The strip-then-upper accessor chain of the state cleaner is idempotent
on every cell. -/
theorem strAccessor_upper_strip_idem (c : Cell) :
    strAccessor pyUpper (strAccessor pyStrip
        (strAccessor pyUpper (strAccessor pyStrip c)))
      = strAccessor pyUpper (strAccessor pyStrip c) := by
  cases c <;> simp [strAccessor, pyUpper_pyStrip_fixed]

/-- The date-string parser yields a timestamp or the missing sentinel. -/
theorem parseDateString_cases (s : String) :
    (∃ d, parseDateString s = .date d) ∨ parseDateString s = .missing := by
  unfold parseDateString
  split
  · split_ifs <;> first | exact Or.inl ⟨_, rfl⟩ | exact Or.inr rfl
  · split_ifs <;> first | exact Or.inl ⟨_, rfl⟩ | exact Or.inr rfl
  · exact Or.inr rfl

/-- The datetime coercion is idempotent on every cell. -/
theorem toDatetime_idem (c : Cell) :
    toDatetime (toDatetime c) = toDatetime c := by
  cases c with
  | str s =>
      show toDatetime (parseDateString s) = parseDateString s
      rcases parseDateString_cases s with ⟨d, hd⟩ | hm
      · rw [hd]; rfl
      · rw [hm]; rfl
  | num q => rfl
  | date d => rfl
  | missing => rfl

/-- The text-cleaner cell transformation is idempotent. -/
theorem cleanTextCell_idem (c : Cell) :
    cleanTextCell (cleanTextCell c) = cleanTextCell c := by
  unfold cleanTextCell
  exact congrArg (fun l => Cell.str (String.mk l))
    (upper_strip_idemL (cellToPyStr c).data)

/-- Mapping an idempotent row function twice equals mapping it once. -/
theorem map_row_idem (f : Row → Row) (h : ∀ r, f (f r) = f r)
    (df : List Row) : (df.map f).map f = df.map f := by
  rw [List.map_map]
  apply List.map_congr_left
  intro r _
  exact h r

/-- The primary-reference cleaner is idempotent on every row. -/
theorem cleanPrimaryRow_idem (r : Row) :
    cleanPrimaryRow (cleanPrimaryRow r) = cleanPrimaryRow r := by
  simp [cleanPrimaryRow, strAccessor_pyStrip_idem]

/-- The create-date cleaner is idempotent on every row. -/
theorem cleanDateRow_idem (r : Row) :
    cleanDateRow (cleanDateRow r) = cleanDateRow r := by
  simp [cleanDateRow, toDatetime_idem]

/-- The state cleaner is idempotent on every row. -/
theorem cleanStatesRow_idem (r : Row) :
    cleanStatesRow (cleanStatesRow r) = cleanStatesRow r := by
  simp [cleanStatesRow, strAccessor_upper_strip_idem]

/-- The text cleaner is idempotent on every row. -/
theorem cleanTextRow_idem (r : Row) :
    cleanTextRow (cleanTextRow r) = cleanTextRow r := by
  simp [cleanTextRow, cleanTextCell_idem]

/-- The range cleaner row function is idempotent (it only rewrites derived
columns, which are recomputed from the untouched range strings). -/
theorem cleanRangesRow_idem (r : Row) :
    cleanRangesRow (cleanRangesRow r) = cleanRangesRow r := rfl

/-- The range cleaner leaves the ship range string untouched. -/
theorem cleanRangesRow_ship (r : Row) :
    (cleanRangesRow r).targetShipRange = r.targetShipRange := rfl

/-- The range cleaner leaves the delivery range string untouched. -/
theorem cleanRangesRow_del (r : Row) :
    (cleanRangesRow r).targetDeliveryRange = r.targetDeliveryRange := rfl

/-- The ship split width is unchanged by the range cleaner. -/
theorem shipWidth_map_cleanRangesRow (df : List Row) :
    shipWidth (df.map cleanRangesRow) = shipWidth df := by
  unfold shipWidth
  rw [List.map_map]
  rfl

/-- The delivery split width is unchanged by the range cleaner. -/
theorem delWidth_map_cleanRangesRow (df : List Row) :
    delWidth (df.map cleanRangesRow) = delWidth df := by
  unfold delWidth
  rw [List.map_map]
  rfl

/-! ### `build_error` characterization lemmas -/

/-- The reported index list consists of the masked 0-based positions, each
shifted by the running offset plus 2. -/
theorem maskIdx_eq (mask : Row → Bool) (df : List Row) (n : Nat) :
    maskIdx mask df n
      = ((List.range df.length).filter fun j => mask (df.getD j defaultRow)).map
          (fun j => j + n + 2) := by
  induction df generalizing n with
  | nil => rfl
  | cons r t ih =>
      have hpred : ((fun j => mask ((r :: t).getD j defaultRow)) ∘ Nat.succ)
          = fun j => mask (t.getD j defaultRow) := by
        funext j
        simp [Function.comp]
      have harith : ((fun j => j + n + 2) ∘ Nat.succ)
          = fun j => j + (n + 1) + 2 := by
        funext j
        simp [Function.comp]
        omega
      by_cases h : mask r <;>
        simp [maskIdx, h, List.range_succ_eq_map, List.filter_cons,
          List.filter_map, hpred, List.map_map, harith, ih] <;>
      exact congrArg _ (congrFun
        (congrArg List.filter (funext fun j => by simp [Function.comp])) _)

/-- The reported index list has exactly one entry per masked row. -/
theorem maskIdx_length (mask : Row → Bool) (df : List Row) (n : Nat) :
    (maskIdx mask df n).length = df.countP mask := by
  induction df generalizing n with
  | nil => rfl
  | cons r t ih =>
      by_cases h : mask r <;> simp [maskIdx, h, ih, List.countP_cons]

/-- The defect count always equals the length of the reported index list. -/
theorem build_error_count (df : List Row) (mask : Row → Bool) :
    (build_error df mask).count = (build_error df mask).indices.length := rfl

/-- The defect count is the number of masked rows. -/
theorem build_error_count_countP (df : List Row) (mask : Row → Bool) :
    (build_error df mask).count = df.countP mask :=
  maskIdx_length mask df 0

/-- Membership characterization of the reported positions. -/
theorem mem_build_error (df : List Row) (mask : Row → Bool) (k : Nat) :
    k ∈ (build_error df mask).indices
      ↔ ∃ i, i < df.length ∧ mask (df.getD i defaultRow) ∧ k = i + 2 := by
  show k ∈ maskIdx mask df 0 ↔ _
  rw [maskIdx_eq]
  simp only [List.mem_map, List.mem_filter, List.mem_range]
  constructor
  · rintro ⟨j, ⟨hj, hm⟩, rfl⟩
    exact ⟨j, hj, hm, by omega⟩
  · rintro ⟨i, hi, hm, rfl⟩
    exact ⟨i, ⟨hi, hm⟩, by omega⟩

/-- The any-guard holds exactly when some row satisfies the mask. -/
theorem anyRow_iff (df : List Row) (mask : Row → Bool) :
    anyRow df mask = true ↔ ∃ r ∈ df, mask r := by
  simp [anyRow]

/-- A positionally indexed row of the store is a member of the store. -/
theorem getD_mem (df : List Row) (i : Nat) (h : i < df.length) :
    df.getD i defaultRow ∈ df := by
  rw [List.getD_eq_getElem df defaultRow h]
  exact List.getElem_mem h

/-- Lookup distributes over list append. -/
theorem lookup_append {α β : Type} [BEq α] (a : α) (l₁ l₂ : List (α × β)) :
    (l₁ ++ l₂).lookup a
      = match l₁.lookup a with
        | some b => some b
        | none => l₂.lookup a := by
  induction l₁ with
  | nil => simp
  | cons p t ih =>
      cases p with
      | mk k b =>
          rw [List.cons_append, List.lookup_cons, List.lookup_cons]
          cases h : a == k <;> simp [ih]

/-- Lookup of the key of a conditional defect entry. -/
theorem lookup_entryIf_self (df : List Row) (k : String) (mask : Row → Bool) :
    (entryIf df k mask).lookup k
      = if anyRow df mask then some (build_error df mask) else none := by
  unfold entryIf
  split_ifs <;> simp

/-- Lookup of another key in a conditional defect entry. -/
theorem lookup_entryIf_ne (df : List Row) (k k' : String) (mask : Row → Bool)
    (h : k' ≠ k) : (entryIf df k mask).lookup k' = none := by
  have hb : (k' == k) = false := by
    rw [beq_eq_false_iff_ne]
    exact h
  unfold entryIf
  split_ifs <;> simp [List.lookup_cons, hb]

/-! ### Lookup characterizations of the validator outputs -/

/-- Lookup of the null defect in the primary-reference validator output. -/
theorem lookup_null_primary (df : List Row) :
    (validate_primary_reference df).lookup "null_primary_reference"
      = if anyRow df nullPrimaryMask then some (build_error df nullPrimaryMask)
        else none := by
  unfold validate_primary_reference
  rw [lookup_append, lookup_append, lookup_entryIf_self,
    lookup_entryIf_ne df "empty_primary_reference" "null_primary_reference"
      emptyPrimaryMask (by decide),
    lookup_entryIf_ne df "duplicate_primary_reference" "null_primary_reference"
      (dupPrimaryMask df) (by decide)]
  cases h : anyRow df nullPrimaryMask <;> rfl

/-- Lookup of the duplicate defect in the primary-reference validator
output. -/
theorem lookup_dup_primary (df : List Row) :
    (validate_primary_reference df).lookup "duplicate_primary_reference"
      = if anyRow df (dupPrimaryMask df) then
          some (build_error df (dupPrimaryMask df)) else none := by
  unfold validate_primary_reference
  rw [lookup_append, lookup_append, lookup_entryIf_self,
    lookup_entryIf_ne df "null_primary_reference" "duplicate_primary_reference"
      nullPrimaryMask (by decide),
    lookup_entryIf_ne df "empty_primary_reference" "duplicate_primary_reference"
      emptyPrimaryMask (by decide)]

/-- Lookup of the null-weight defect in the weight validator output. -/
theorem lookup_null_weight (df : List Row) :
    (validate_weight df).lookup "null_weight"
      = if anyRow df nullWeightMask then some (build_error df nullWeightMask)
        else none := by
  unfold validate_weight validate_overweight
  rw [lookup_append, lookup_append, lookup_append, lookup_entryIf_self,
    lookup_entryIf_ne df "invalid_weight_format" "null_weight"
      invalidWeightFormatMask (by decide),
    lookup_entryIf_ne df "non_positive" "null_weight"
      nonPositiveMask (by decide)]
  cases h : anyRow df nullWeightMask
  · cases h2 : anyRow df (overweightMask OVERWEIGHT_USERS) <;> rfl
  · rfl

/-- Lookup of the non-positive defect in the weight validator output. -/
theorem lookup_non_positive (df : List Row) :
    (validate_weight df).lookup "non_positive"
      = if anyRow df nonPositiveMask then some (build_error df nonPositiveMask)
        else none := by
  unfold validate_weight validate_overweight
  rw [lookup_append, lookup_append, lookup_append, lookup_entryIf_self,
    lookup_entryIf_ne df "null_weight" "non_positive"
      nullWeightMask (by decide),
    lookup_entryIf_ne df "invalid_weight_format" "non_positive"
      invalidWeightFormatMask (by decide)]
  cases h : anyRow df nonPositiveMask
  · cases h2 : anyRow df (overweightMask OVERWEIGHT_USERS) <;> rfl
  · rfl

/-- Lookup of the overweight defect in the weight validator output. -/
theorem lookup_overweight (df : List Row) :
    (validate_weight df).lookup "overweight"
      = if anyRow df (overweightMask OVERWEIGHT_USERS) then
          some (build_error df (overweightMask OVERWEIGHT_USERS)) else none := by
  unfold validate_weight validate_overweight
  rw [lookup_append, lookup_append, lookup_append,
    lookup_entryIf_ne df "null_weight" "overweight" nullWeightMask (by decide),
    lookup_entryIf_ne df "invalid_weight_format" "overweight"
      invalidWeightFormatMask (by decide),
    lookup_entryIf_ne df "non_positive" "overweight"
      nonPositiveMask (by decide)]
  cases h : anyRow df (overweightMask OVERWEIGHT_USERS) <;> rfl

/-- Lookup of the too-old defect in the create-date validator output. -/
theorem lookup_too_old (now : Date) (df : List Row) :
    (validate_create_date now df).lookup "too_old"
      = if anyRow df tooOldMask then some (build_error df tooOldMask)
        else none := by
  unfold validate_create_date
  rw [lookup_append, lookup_append, lookup_entryIf_self,
    lookup_entryIf_ne df "null_date" "too_old" nullDateMask (by decide),
    lookup_entryIf_ne df "future_date" "too_old"
      (fun r => dateGtConst r.createDate now) (by decide)]

/-- Lookup of the null-ship defect in the range validator output. -/
theorem lookup_null_ship (df : List Row) :
    (validate_ship_and_delivery_ranges df).lookup "null_ship_dates"
      = if anyRow df nullShipMask then some (build_error df nullShipMask)
        else none := by
  unfold validate_ship_and_delivery_ranges
  rw [lookup_append, lookup_append, lookup_append, lookup_append,
    lookup_entryIf_self,
    lookup_entryIf_ne df "null_delivery_dates" "null_ship_dates"
      nullDeliveryMask (by decide),
    lookup_entryIf_ne df "ship_start_after_end" "null_ship_dates"
      shipOrderMask (by decide),
    lookup_entryIf_ne df "delivery_start_after_end" "null_ship_dates"
      deliveryOrderMask (by decide),
    lookup_entryIf_ne df "delivery_before_shipping" "null_ship_dates"
      deliveryBeforeShipMask (by decide)]
  cases h : anyRow df nullShipMask <;> rfl

/-- Lookup of the null-delivery defect in the range validator output. -/
theorem lookup_null_delivery (df : List Row) :
    (validate_ship_and_delivery_ranges df).lookup "null_delivery_dates"
      = if anyRow df nullDeliveryMask then some (build_error df nullDeliveryMask)
        else none := by
  unfold validate_ship_and_delivery_ranges
  rw [lookup_append, lookup_append, lookup_append, lookup_append,
    lookup_entryIf_self,
    lookup_entryIf_ne df "null_ship_dates" "null_delivery_dates"
      nullShipMask (by decide),
    lookup_entryIf_ne df "ship_start_after_end" "null_delivery_dates"
      shipOrderMask (by decide),
    lookup_entryIf_ne df "delivery_start_after_end" "null_delivery_dates"
      deliveryOrderMask (by decide),
    lookup_entryIf_ne df "delivery_before_shipping" "null_delivery_dates"
      deliveryBeforeShipMask (by decide)]
  cases h : anyRow df nullDeliveryMask <;> rfl

/-- Lookup of the ship-order defect in the range validator output. -/
theorem lookup_ship_order (df : List Row) :
    (validate_ship_and_delivery_ranges df).lookup "ship_start_after_end"
      = if anyRow df shipOrderMask then some (build_error df shipOrderMask)
        else none := by
  unfold validate_ship_and_delivery_ranges
  rw [lookup_append, lookup_append, lookup_append, lookup_append,
    lookup_entryIf_self,
    lookup_entryIf_ne df "null_ship_dates" "ship_start_after_end"
      nullShipMask (by decide),
    lookup_entryIf_ne df "null_delivery_dates" "ship_start_after_end"
      nullDeliveryMask (by decide),
    lookup_entryIf_ne df "delivery_start_after_end" "ship_start_after_end"
      deliveryOrderMask (by decide),
    lookup_entryIf_ne df "delivery_before_shipping" "ship_start_after_end"
      deliveryBeforeShipMask (by decide)]
  cases h : anyRow df shipOrderMask <;> rfl

/-- Lookup of the delivery-order defect in the range validator output. -/
theorem lookup_delivery_order (df : List Row) :
    (validate_ship_and_delivery_ranges df).lookup "delivery_start_after_end"
      = if anyRow df deliveryOrderMask then
          some (build_error df deliveryOrderMask) else none := by
  unfold validate_ship_and_delivery_ranges
  rw [lookup_append, lookup_append, lookup_append, lookup_append,
    lookup_entryIf_self,
    lookup_entryIf_ne df "null_ship_dates" "delivery_start_after_end"
      nullShipMask (by decide),
    lookup_entryIf_ne df "null_delivery_dates" "delivery_start_after_end"
      nullDeliveryMask (by decide),
    lookup_entryIf_ne df "ship_start_after_end" "delivery_start_after_end"
      shipOrderMask (by decide),
    lookup_entryIf_ne df "delivery_before_shipping" "delivery_start_after_end"
      deliveryBeforeShipMask (by decide)]
  cases h : anyRow df deliveryOrderMask <;> rfl

/-- Lookup of the delivery-before-shipping defect in the range validator
output. -/
theorem lookup_delivery_before (df : List Row) :
    (validate_ship_and_delivery_ranges df).lookup "delivery_before_shipping"
      = if anyRow df deliveryBeforeShipMask then
          some (build_error df deliveryBeforeShipMask) else none := by
  unfold validate_ship_and_delivery_ranges
  rw [lookup_append, lookup_append, lookup_append, lookup_append,
    lookup_entryIf_self,
    lookup_entryIf_ne df "null_ship_dates" "delivery_before_shipping"
      nullShipMask (by decide),
    lookup_entryIf_ne df "null_delivery_dates" "delivery_before_shipping"
      nullDeliveryMask (by decide),
    lookup_entryIf_ne df "ship_start_after_end" "delivery_before_shipping"
      shipOrderMask (by decide),
    lookup_entryIf_ne df "delivery_start_after_end" "delivery_before_shipping"
      deliveryOrderMask (by decide)]

/-! ### Policy-gate lemmas -/

/-- Boolean membership agrees with propositional membership. -/
theorem contains_iff_mem {α : Type} [BEq α] [LawfulBEq α] (l : List α) (a : α) :
    l.contains a = true ↔ a ∈ l := by
  simp [List.contains]

/-- The critical-triple collection is empty exactly when no defect kind in
the report is critical. -/
theorem collectCritical_eq_nil_iff
    (ae : List (String × List (String × ErrorData))) :
    collectCritical ae = []
      ↔ ∀ p ∈ ae, ∀ q ∈ p.2, q.1 ∉ CRITICAL_ERRORS := by
  induction ae with
  | nil => simp [collectCritical]
  | cons hd tl ih =>
      cases hd with
      | mk dom errs =>
          simp only [collectCritical, List.append_eq_nil, ih,
            List.filterMap_eq_nil_iff, List.mem_cons]
          constructor
          · rintro ⟨hfm, htl⟩ p hp q hq
            rcases hp with rfl | hp
            · have := hfm q hq
              intro hcrit
              rw [if_pos ((contains_iff_mem CRITICAL_ERRORS q.1).mpr hcrit)] at this
              cases this
            · exact htl p hp q hq
          · intro h
            constructor
            · intro q hq
              have := h (dom, errs) (Or.inl rfl) q hq
              rw [if_neg fun hc => this ((contains_iff_mem CRITICAL_ERRORS q.1).mp hc)]
            · intro p hp q hq
              exact h p (Or.inr hp) q hq

/-- A critical defect exists in the report exactly when the collected
critical-triple list is nonempty. -/
theorem critical_exists_iff (ae : List (String × List (String × ErrorData))) :
    (∃ p ∈ ae, ∃ q ∈ p.2, q.1 ∈ CRITICAL_ERRORS) ↔ collectCritical ae ≠ [] := by
  rw [Ne, collectCritical_eq_nil_iff]
  constructor
  · rintro ⟨p, hp, q, hq, hcrit⟩ hall
    exact (hall p hp q hq) hcrit
  · intro h
    by_contra hno
    apply h
    intro p hp q hq hcrit
    exact hno ⟨p, hp, q, hq, hcrit⟩

/-! ### Claim C1 -/

/-- C1: the policy gate raises a pipeline-failure signal exactly when the
aggregated report contains at least one defect kind in the fixed critical
set; when it raises, the message enumerates every critical
(domain, kind, count) triple, comma-joined, in encounter order of the
nested report iteration; when the report holds only advisory kinds (or
none) the gate returns normally, and being a pure reader it leaves the
report unchanged. -/
theorem c1_policy_gate (ae : List (String × List (String × ErrorData))) :
    ((∃ msg, enforce_policy ae = Except.error msg)
        ↔ ∃ p ∈ ae, ∃ q ∈ p.2, q.1 ∈ CRITICAL_ERRORS)
      ∧ (∀ msg, enforce_policy ae = Except.error msg →
          msg = "Pipeline failed due to critical errors: "
            ++ String.intercalate ", " ((collectCritical ae).map criticalPart))
      ∧ ((¬ ∃ p ∈ ae, ∃ q ∈ p.2, q.1 ∈ CRITICAL_ERRORS) →
          enforce_policy ae = Except.ok ()) := by
  refine ⟨⟨?_, ?_⟩, ?_, ?_⟩
  · rintro ⟨msg, hmsg⟩
    rw [critical_exists_iff]
    intro hnil
    unfold enforce_policy at hmsg
    rw [if_pos hnil] at hmsg
    cases hmsg
  · intro hex
    rw [critical_exists_iff] at hex
    unfold enforce_policy
    rw [if_neg hex]
    exact ⟨_, rfl⟩
  · intro msg hmsg
    unfold enforce_policy at hmsg
    by_cases hnil : collectCritical ae = []
    · rw [if_pos hnil] at hmsg
      cases hmsg
    · rw [if_neg hnil] at hmsg
      injection hmsg with h
      exact h.symm
  · intro hno
    have hnil : collectCritical ae = [] := by
      by_contra hne
      exact hno ((critical_exists_iff ae).mpr hne)
    unfold enforce_policy
    rw [if_pos hnil]

/-- Witness for C1: a report holding one critical defect raises with the
expected message, and an advisory-only report passes. -/
theorem c1_policy_gate_witness :
    enforce_policy [("status", [("invalid_status", ⟨1, [3]⟩)])] = Except.ok ()
      ∧ ∀ msg,
          enforce_policy [("weight", [("null_weight", ⟨1, [2]⟩)])]
              = Except.error msg →
            msg = "Pipeline failed due to critical errors: "
              ++ "weight.null_weight (1 rows)" := by
  constructor
  · exact (c1_policy_gate [("status", [("invalid_status", ⟨1, [3]⟩)])]).2.2
      (by decide)
  · intro msg hmsg
    have h := (c1_policy_gate [("weight", [("null_weight", ⟨1, [2]⟩)])]).2.1
      msg hmsg
    rw [h]
    rfl

/-! ### Claim C2 -/

/-- A five-row store whose 1-based data rows 2 and 4 carry an empty
primary reference (violating the empty-reference rule). -/
def dfC2 : List Row :=
  [{ defaultRow with primaryReference := .str "REF1" },
   { defaultRow with primaryReference := .str "" },
   { defaultRow with primaryReference := .str "REF3" },
   { defaultRow with primaryReference := .str "" },
   { defaultRow with primaryReference := .str "REF5" }]

/-- C2 counterexample: for the synthetic five-row store whose 1-based data
rows 2 and 4 violate the empty-reference rule, the reported positions are
[3, 5] (0-based pandas index plus 2), not the [4, 6] the claim states. -/
theorem c2_counterexample :
    (build_error dfC2 emptyPrimaryMask).indices = [3, 5]
      ∧ (build_error dfC2 emptyPrimaryMask).indices ≠ [4, 6]
      ∧ (validate_primary_reference dfC2).lookup "empty_primary_reference"
          = some ⟨2, [3, 5]⟩ := by
  refine ⟨by decide, by decide, by decide⟩

/-- C2 (amended): the reported positions of a defect are exactly the
0-based source positions where the mask holds, each shifted by 2 (one
header row plus 1-based file numbering), in increasing order, and the
count equals the length of the position list; in particular the five-row
store with violations at 1-based data rows 2 and 4 reports [3, 5]. -/
theorem c2_amended (df : List Row) (mask : Row → Bool) :
    (build_error df mask).indices
        = ((List.range df.length).filter fun i => mask (df.getD i defaultRow)).map
            (fun i => i + 2)
      ∧ (build_error df mask).count = (build_error df mask).indices.length := by
  constructor
  · have h := maskIdx_eq mask df 0
    simpa using h
  · rfl

/-! ### Claim C3 -/

/-- A one-row store whose raw weight is the grouped string 49,500. -/
def dfC3 : List Row := [{ defaultRow with weight := .str "49,500" }]

/-- C3 counterexample: running the weight cleaner twice is not a no-op:
the second run overwrites the Weight_raw shadow column (holding the raw
string) with the already-cleaned numeric weight. -/
theorem c3_counterexample :
    clean_weight (clean_weight dfC3) ≠ clean_weight dfC3
      ∧ ((clean_weight dfC3).getD 0 defaultRow).weightRaw = Cell.str "49,500"
      ∧ ((clean_weight (clean_weight dfC3)).getD 0 defaultRow).weightRaw
          = Cell.num 49500 := by
  refine ⟨by decide, by decide, by decide⟩

/-- C3 (amended): every cleaner except the weight cleaner is idempotent on
every store (the range cleaner in the sense that a successful cleaning is a
fixed point); the weight cleaner is excluded because a second run
overwrites the Weight_raw shadow column with the cleaned numeric value. -/
theorem c3_amended (df : List Row) :
    clean_primary_reference (clean_primary_reference df)
        = clean_primary_reference df
      ∧ clean_create_date (clean_create_date df) = clean_create_date df
      ∧ clean_states (clean_states df) = clean_states df
      ∧ clean_text_columns (clean_text_columns df) = clean_text_columns df
      ∧ ∀ df', clean_ship_and_delivery_ranges df = Except.ok df' →
          clean_ship_and_delivery_ranges df' = Except.ok df' := by
  refine ⟨map_row_idem _ cleanPrimaryRow_idem df,
    map_row_idem _ cleanDateRow_idem df,
    map_row_idem _ cleanStatesRow_idem df,
    map_row_idem _ cleanTextRow_idem df, ?_⟩
  intro df' h
  unfold clean_ship_and_delivery_ranges at h ⊢
  split_ifs at h with h1 h2 h3 h4
  injection h with hdf
  subst hdf
  rw [shipWidth_map_cleanRangesRow, delWidth_map_cleanRangesRow]
  rw [if_neg h1, if_neg h2, if_neg h3, if_neg h4]
  exact congrArg Except.ok (map_row_idem _ cleanRangesRow_idem df)

/-- A row whose ship range has a parseable year fragment, used to exercise
the range-cleaner conjunct of the amended C3. -/
def rowC3w : Row :=
  { defaultRow with
    targetShipRange := .str "2024-a"
    targetDeliveryRange := .str "b-c" }

/-- One-row store around `rowC3w`. -/
def dfC3w : List Row := [rowC3w]

/-- The row of `rowC3w` after one range cleaning. -/
def rowC3w2 : Row :=
  { defaultRow with
    targetShipRange := .str "2024-a"
    targetDeliveryRange := .str "b-c"
    shipStart := .date ⟨2024, 1, 1⟩ }

/-- The store of `dfC3w` after one range cleaning. -/
def dfC3w2 : List Row := [rowC3w2]

/-- Witness for C3 (amended): the range-cleaner conjunct applied at a
concrete store. -/
theorem c3_amended_witness :
    clean_ship_and_delivery_ranges dfC3w2 = Except.ok dfC3w2 :=
  (c3_amended dfC3w).2.2.2.2 dfC3w2 (by rfl)

/-! ### Claim C4 -/

deriving instance DecidableEq for Except

/-- The row of the C4 scenario: its Target Ship (Range) is the spec example
string whose intended start lies after its intended end. -/
def rowC4 : Row :=
  { defaultRow with
    targetShipRange := .str "2024-01-10 - 2024-01-05"
    targetDeliveryRange := .str "2024-01-10 - 2024-01-12" }

/-- One-row store around `rowC4`. -/
def dfC4 : List Row := [rowC4]

/-- C4 counterexample: the range cleaner does not split the example string
into exactly two parts: `str.split("-")` splits on every hyphen, producing
six fragments, so the claimed mechanism (a two-part split whose parts are
the two intended dates) fails. -/
theorem c4_counterexample :
    (splitParts rowC4.targetShipRange).length = 6
      ∧ ¬ ((splitParts rowC4.targetShipRange).length = 2
            ∧ toDatetime (splitCol rowC4.targetShipRange 0)
                = Cell.date ⟨2024, 1, 10⟩
            ∧ toDatetime (splitCol rowC4.targetShipRange 1)
                = Cell.date ⟨2024, 1, 5⟩) := by
  refine ⟨by decide, by decide⟩

/-- C4 (amended): the example row is reported under ship_start_after_end
and not under null_ship_dates, but not for the stated reason: the cleaner
splits the string on every hyphen into six fragments; the derived ship
start comes from the fragment 2024 (parsing to 2024-01-01) and the derived
ship end from the fragment 01 (parsing to 1900-01-01 under the pandas
day-format inference), so the order defect fires because
2024-01-01 is after 1900-01-01 while both derived cells are non-missing. -/
theorem c4_amended :
    splitParts rowC4.targetShipRange
        = ["2024", "01", "10 ", " 2024", "01", "05"]
      ∧ (cleanRangesRow rowC4).shipStart = Cell.date ⟨2024, 1, 1⟩
      ∧ (cleanRangesRow rowC4).shipEnd = Cell.date ⟨1900, 1, 1⟩
      ∧ clean_ship_and_delivery_ranges dfC4 = Except.ok [cleanRangesRow rowC4]
      ∧ (validate_ship_and_delivery_ranges [cleanRangesRow rowC4]).lookup
          "ship_start_after_end" = some ⟨1, [2]⟩
      ∧ (validate_ship_and_delivery_ranges [cleanRangesRow rowC4]).lookup
          "null_ship_dates" = none := by
  refine ⟨by decide, by decide, by decide, by decide, by decide, by decide⟩

/-! ### Claim C5 -/

/-- A row whose range strings contain no delimiter at all, so each splits
into a single part (a malformed split in the sense of the spec). -/
def rowC5bad : Row :=
  { defaultRow with
    targetShipRange := .str "nodate"
    targetDeliveryRange := .str "nodate" }

/-- A companion row whose range strings do contain delimiters, giving the
split frame its second column. -/
def rowC5good : Row :=
  { defaultRow with
    targetShipRange := .str "2024-01-10 - 2024-01-05"
    targetDeliveryRange := .str "2024-01-10 - 2024-01-12" }

/-- Two-row store mixing a malformed and a well-formed range row. -/
def dfC5 : List Row := [rowC5bad, rowC5good]

/-- C5 counterexample: a malformed per-row range split is not fatal: the
cleaner succeeds on a store holding a malformed row (its split has one
part, not two), and the affected row is aggregated into the report under
null_ship_dates rather than stopping the pipeline. -/
theorem c5_counterexample :
    (splitParts rowC5bad.targetShipRange).length = 1
      ∧ clean_ship_and_delivery_ranges dfC5
          = Except.ok (dfC5.map cleanRangesRow)
      ∧ (validate_ship_and_delivery_ranges (dfC5.map cleanRangesRow)).lookup
          "null_ship_dates" = some ⟨1, [2]⟩ := by
  refine ⟨by decide, by decide, by decide⟩

/-- C5 (amended): a malformed per-row split is not a structural error: as
long as some row gives the ship and delivery split frames a second column,
the cleaner returns normally, the malformed rows derive missing sentinels
and fall under the null-range defects of the aggregated report; the
cleaner fails the pipeline only when no row at all splits into two or more
parts, making the column lookup of the split frame raise. -/
theorem c5_amended (df : List Row) :
    (2 ≤ shipWidth df → 2 ≤ delWidth df →
        clean_ship_and_delivery_ranges df = Except.ok (df.map cleanRangesRow)
          ∧ ∀ r ∈ df, (splitParts r.targetShipRange).length < 2 →
              (cleanRangesRow r).shipEnd = Cell.missing
                ∧ nullShipMask (cleanRangesRow r) = true)
      ∧ (shipWidth df < 2 →
          ∃ e, clean_ship_and_delivery_ranges df = Except.error e) := by
  constructor
  · intro hs hd
    constructor
    · unfold clean_ship_and_delivery_ranges
      rw [if_neg (by omega), if_neg (by omega), if_neg (by omega),
        if_neg (by omega)]
    · intro r hr hlen
      have hnone : (splitParts r.targetShipRange).get? 1 = none := by
        rw [List.get?_eq_none]
        omega
      have hend : (cleanRangesRow r).shipEnd = Cell.missing := by
        show toDatetime (splitCol r.targetShipRange 1) = Cell.missing
        unfold splitCol
        rw [hnone]
        rfl
      exact ⟨hend, by simp [nullShipMask, hend]⟩
  · intro hlt
    unfold clean_ship_and_delivery_ranges
    by_cases h0 : shipWidth df < 1
    · rw [if_pos h0]
      exact ⟨_, rfl⟩
    · rw [if_neg h0, if_pos (by omega)]
      exact ⟨_, rfl⟩

/-- Witness for C5 (amended) at the concrete mixed store. -/
theorem c5_amended_witness :
    clean_ship_and_delivery_ranges dfC5 = Except.ok (dfC5.map cleanRangesRow)
      ∧ (cleanRangesRow rowC5bad).shipEnd = Cell.missing := by
  have h := (c5_amended dfC5).1 (by decide) (by decide)
  exact ⟨h.1, (h.2 rowC5bad (by decide) (by decide)).1⟩

/-! ### Membership helpers for defect position lists -/

/-- A position whose row fails the mask is not reported. -/
theorem not_mem_build_error_of_mask_false (df : List Row) (mask : Row → Bool)
    (i : Nat) (hm : mask (df.getD i defaultRow) = false) :
    (i + 2) ∉ (build_error df mask).indices := by
  rw [mem_build_error]
  rintro ⟨j, hj, hmask, hk⟩
  have hji : j = i := by omega
  subst hji
  rw [hm] at hmask
  cases hmask

/-- A position whose row satisfies the mask is reported. -/
theorem mem_build_error_of_mask_true (df : List Row) (mask : Row → Bool)
    (i : Nat) (hi : i < df.length) (hm : mask (df.getD i defaultRow) = true) :
    (i + 2) ∈ (build_error df mask).indices := by
  rw [mem_build_error]
  exact ⟨i, hi, hm, rfl⟩

/-- A conditional defect entry never reports a position whose row fails
the mask. -/
theorem lookup_if_not_mem (df : List Row) (mask : Row → Bool) (e : ErrorData)
    (i : Nat)
    (he : (if anyRow df mask then some (build_error df mask) else none)
      = some e)
    (hm : mask (df.getD i defaultRow) = false) : (i + 2) ∉ e.indices := by
  by_cases hany : anyRow df mask
  · rw [if_pos hany] at he
    injection he with he2
    rw [← he2]
    exact not_mem_build_error_of_mask_false df mask i hm
  · rw [if_neg hany] at he
    cases he

/-- A conditional defect entry reports every position whose row satisfies
the mask. -/
theorem lookup_if_mem (df : List Row) (mask : Row → Bool)
    (i : Nat) (hi : i < df.length)
    (hm : mask (df.getD i defaultRow) = true) :
    ∃ e, (if anyRow df mask then some (build_error df mask) else none)
        = some e ∧ (i + 2) ∈ e.indices := by
  have hany : anyRow df mask = true := by
    rw [anyRow_iff]
    exact ⟨df.getD i defaultRow, getD_mem df i hi, hm⟩
  rw [if_pos hany]
  exact ⟨_, rfl, mem_build_error_of_mask_true df mask i hi hm⟩

/-! ### Claim C6 -/

/-- C6: the overweight defect fires for exactly the rows whose cleaned
weight is at least 49000 and whose creator identity, rendered as a string,
trimmed and lower-cased, is not in the fixed 4-entry exemption set; and a
raw weight string of 49,500 cleans to the numeric value 49500. -/
theorem c6_overweight (df : List Row) (i : Nat) (hi : i < df.length) :
    ((∃ e, (validate_weight df).lookup "overweight" = some e
          ∧ (i + 2) ∈ e.indices)
        ↔ (numGe (df.getD i defaultRow).weight 49000 = true
            ∧ pyLower (pyStrip (cellToPyStr (df.getD i defaultRow).createBy))
                ∉ OVERWEIGHT_USERS))
      ∧ OVERWEIGHT_USERS.length = 4
      ∧ ∀ r : Row, r.weight = Cell.str "49,500" →
          (clean_weight_row r).weight = Cell.num 49500 := by
  refine ⟨?_, by decide, ?_⟩
  · rw [lookup_overweight]
    constructor
    · rintro ⟨e, he, hmem⟩
      by_cases hany : anyRow df (overweightMask OVERWEIGHT_USERS)
      · rw [if_pos hany] at he
        injection he with he2
        rw [← he2, mem_build_error] at hmem
        obtain ⟨j, hj, hm, hk⟩ := hmem
        have hji : j = i := by omega
        subst hji
        unfold overweightMask at hm
        rw [Bool.and_eq_true] at hm
        refine ⟨hm.1, ?_⟩
        intro hmemu
        have hc := hm.2
        rw [(contains_iff_mem OVERWEIGHT_USERS _).mpr hmemu] at hc
        cases hc
      · rw [if_neg hany] at he
        cases he
    · rintro ⟨h1, h2⟩
      have hmask : overweightMask OVERWEIGHT_USERS (df.getD i defaultRow)
          = true := by
        unfold overweightMask
        rw [Bool.and_eq_true]
        refine ⟨h1, ?_⟩
        cases hcc : OVERWEIGHT_USERS.contains
            (pyLower (pyStrip (cellToPyStr (df.getD i defaultRow).createBy)))
        · rfl
        · exact (h2 ((contains_iff_mem OVERWEIGHT_USERS _).mp hcc)).elim
      exact lookup_if_mem df (overweightMask OVERWEIGHT_USERS) i hi hmask
  · intro r hw
    show parseDecimal (stripCommas (cellToPyStr r.weight)) = Cell.num 49500
    rw [hw]
    decide

/-- A row with cleaned weight 49500 and a creator outside the exemption
set. -/
def rowC6a : Row :=
  { defaultRow with
    weight := .num 49500
    createBy := .str "ops@company.com" }

/-- A row with cleaned weight 49500 and a creator that lands in the
exemption set after trimming and lower-casing. -/
def rowC6b : Row :=
  { defaultRow with
    weight := .num 49500
    createBy := .str " Overweight_Ops_1@Company.com " }

/-- Two-row store for the C6 witness. -/
def dfC6 : List Row := [rowC6a, rowC6b]

/-- Witness for C6: with cleaned weight 49500 the non-exempt creator is
flagged overweight and the exempt creator is not. -/
theorem c6_overweight_witness :
    (∃ e, (validate_weight dfC6).lookup "overweight" = some e ∧ 2 ∈ e.indices)
      ∧ ¬ (∃ e, (validate_weight dfC6).lookup "overweight" = some e
            ∧ 3 ∈ e.indices) := by
  constructor
  · exact (c6_overweight dfC6 0 (by decide)).1.mpr ⟨by decide, by decide⟩
  · intro hx
    have h := (c6_overweight dfC6 1 (by decide)).1.mp hx
    exact absurd h.2 (by decide)

/-! ### Claim C7 -/

/-- C7: the duplicate defect flags every occurrence of any identifier value
that occurs in more than one row (pandas duplicated with keep=False), and
when one identifier value occurs in exactly two rows while every other
identifier is unique, the defect has count 2 and a two-entry position
list. -/
theorem c7_duplicates (df : List Row) :
    (∀ i, i < df.length →
        ((∃ e, (validate_primary_reference df).lookup
              "duplicate_primary_reference" = some e ∧ (i + 2) ∈ e.indices)
          ↔ 2 ≤ df.countP fun p =>
              p.primaryReference == (df.getD i defaultRow).primaryReference))
      ∧ ∀ v : Cell,
          (df.countP fun p => p.primaryReference == v) = 2 →
          (∀ r ∈ df, r.primaryReference ≠ v →
            (df.countP fun p => p.primaryReference == r.primaryReference) ≤ 1) →
          ∃ e, (validate_primary_reference df).lookup
              "duplicate_primary_reference" = some e
            ∧ e.count = 2 ∧ e.indices.length = 2 := by
  constructor
  · intro i hi
    rw [lookup_dup_primary]
    constructor
    · rintro ⟨e, he, hmem⟩
      by_cases hany : anyRow df (dupPrimaryMask df)
      · rw [if_pos hany] at he
        injection he with he2
        rw [← he2, mem_build_error] at hmem
        obtain ⟨j, hj, hm, hk⟩ := hmem
        have hji : j = i := by omega
        subst hji
        unfold dupPrimaryMask at hm
        exact of_decide_eq_true hm
      · rw [if_neg hany] at he
        cases he
    · intro hcount
      exact lookup_if_mem df (dupPrimaryMask df) i hi (decide_eq_true hcount)
  · intro v hv hothers
    have hmaskeq : ∀ r ∈ df, dupPrimaryMask df r
        = (r.primaryReference == v) := by
      intro r hr
      unfold dupPrimaryMask
      by_cases heq : r.primaryReference = v
      · rw [heq, hv]
        simp
      · have hbf : (r.primaryReference == v) = false := by
          rw [beq_eq_false_iff_ne]
          exact heq
        rw [hbf]
        exact decide_eq_false (by have := hothers r hr heq; omega)
    obtain ⟨w, hw, hwv⟩ : ∃ a ∈ df, (a.primaryReference == v) = true := by
      rw [← List.countP_pos_iff]
      omega
    have hany : anyRow df (dupPrimaryMask df) = true := by
      rw [anyRow_iff]
      refine ⟨w, hw, ?_⟩
      rw [hmaskeq w hw]
      exact hwv
    rw [lookup_dup_primary, if_pos hany]
    refine ⟨_, rfl, ?_, ?_⟩
    · rw [build_error_count_countP,
        List.countP_congr fun x hx => by rw [hmaskeq x hx]]
      exact hv
    · rw [← build_error_count, build_error_count_countP,
        List.countP_congr fun x hx => by rw [hmaskeq x hx]]
      exact hv

/-- Three-row store whose identifier A occurs exactly twice. -/
def dfC7 : List Row :=
  [{ defaultRow with primaryReference := .str "A" },
   { defaultRow with primaryReference := .str "B" },
   { defaultRow with primaryReference := .str "A" }]

/-- Witness for C7 at the concrete store: the duplicate defect has count 2
and two reported positions. -/
theorem c7_duplicates_witness :
    ∃ e, (validate_primary_reference dfC7).lookup "duplicate_primary_reference"
        = some e ∧ e.count = 2 ∧ e.indices.length = 2 :=
  (c7_duplicates dfC7).2 (Cell.str "A") (by decide) (by decide)

/-! ### Claim C8 -/

/-- A strict date comparison against a constant holds exactly on timestamp
cells strictly before the constant. -/
theorem dateLtConst_iff (c : Cell) (d0 : Date) :
    dateLtConst c d0 = true ↔ ∃ d, c = Cell.date d ∧ d.key < d0.key := by
  cases c <;> simp [dateLtConst]

/-- C8: the too-old defect uses a strict less-than comparison against the
fixed cutoff 2020-01-01: a row is flagged exactly when its cleaned create
date is a timestamp strictly before the cutoff, so a date equal to the
cutoff is never flagged. -/
theorem c8_too_old (now : Date) (df : List Row) (i : Nat)
    (hi : i < df.length) :
    ((∃ e, (validate_create_date now df).lookup "too_old" = some e
          ∧ (i + 2) ∈ e.indices)
        ↔ ∃ d : Date, (df.getD i defaultRow).createDate = Cell.date d
            ∧ d.key < tooOldCutoff.key)
      ∧ ((df.getD i defaultRow).createDate = Cell.date tooOldCutoff →
          ¬ ∃ e, (validate_create_date now df).lookup "too_old" = some e
              ∧ (i + 2) ∈ e.indices) := by
  have hiff : (∃ e, (validate_create_date now df).lookup "too_old" = some e
        ∧ (i + 2) ∈ e.indices)
      ↔ ∃ d : Date, (df.getD i defaultRow).createDate = Cell.date d
          ∧ d.key < tooOldCutoff.key := by
    rw [lookup_too_old]
    constructor
    · rintro ⟨e, he, hmem⟩
      by_cases hany : anyRow df tooOldMask
      · rw [if_pos hany] at he
        injection he with he2
        rw [← he2, mem_build_error] at hmem
        obtain ⟨j, hj, hm, hk⟩ := hmem
        have hji : j = i := by omega
        subst hji
        exact (dateLtConst_iff _ _).mp hm
      · rw [if_neg hany] at he
        cases he
    · intro hex
      exact lookup_if_mem df tooOldMask i hi ((dateLtConst_iff _ _).mpr hex)
  refine ⟨hiff, ?_⟩
  intro hcut hex
  obtain ⟨d, hd, hlt⟩ := hiff.mp hex
  rw [hcut] at hd
  injection hd with hdd
  rw [← hdd] at hlt
  omega

/-- Two-row store: a create date exactly at the cutoff and one strictly
before it. -/
def dfC8 : List Row :=
  [{ defaultRow with createDate := .date ⟨2020, 1, 1⟩ },
   { defaultRow with createDate := .date ⟨2019, 12, 31⟩ }]

/-- Witness for C8: the cutoff row is not flagged too old and the earlier
row is. -/
theorem c8_too_old_witness :
    (¬ ∃ e, (validate_create_date ⟨2026, 10, 12⟩ dfC8).lookup "too_old"
        = some e ∧ 2 ∈ e.indices)
      ∧ ∃ e, (validate_create_date ⟨2026, 10, 12⟩ dfC8).lookup "too_old"
          = some e ∧ 3 ∈ e.indices := by
  constructor
  · exact (c8_too_old ⟨2026, 10, 12⟩ dfC8 0 (by decide)).2 (by decide)
  · exact (c8_too_old ⟨2026, 10, 12⟩ dfC8 1 (by decide)).1.mpr
      ⟨⟨2019, 12, 31⟩, by decide, by decide⟩

/-! ### Claim C9 -/

/-- A date-cell order comparison is false when its left operand is the
missing sentinel. -/
theorem dateLtCell_missing_left (b : Cell) :
    dateLtCell Cell.missing b = false := by
  cases b <;> rfl

/-- A date-cell order comparison is false when its right operand is the
missing sentinel. -/
theorem dateLtCell_missing_right (a : Cell) :
    dateLtCell a Cell.missing = false := by
  cases a <;> rfl

/-- C9: comparison-based defects never fire on rows whose operands are the
missing sentinel: a missing cleaned weight is reported under null_weight
but never under non_positive or overweight; a missing derived ship start
or end is reported under null_ship_dates but never under
ship_start_after_end; a missing derived delivery start or end is reported
under null_delivery_dates but never under delivery_start_after_end; and a
missing delivery start or ship start never yields
delivery_before_shipping. -/
theorem c9_missing_sentinels (df : List Row) (i : Nat) (hi : i < df.length) :
    ((df.getD i defaultRow).weight = Cell.missing →
        (∀ e, (validate_weight df).lookup "non_positive" = some e →
            (i + 2) ∉ e.indices)
          ∧ (∀ e, (validate_weight df).lookup "overweight" = some e →
              (i + 2) ∉ e.indices)
          ∧ ∃ e, (validate_weight df).lookup "null_weight" = some e
              ∧ (i + 2) ∈ e.indices)
      ∧ (((df.getD i defaultRow).shipStart = Cell.missing
            ∨ (df.getD i defaultRow).shipEnd = Cell.missing) →
          (∀ e, (validate_ship_and_delivery_ranges df).lookup
              "ship_start_after_end" = some e → (i + 2) ∉ e.indices)
            ∧ ∃ e, (validate_ship_and_delivery_ranges df).lookup
                "null_ship_dates" = some e ∧ (i + 2) ∈ e.indices)
      ∧ (((df.getD i defaultRow).deliveryStart = Cell.missing
            ∨ (df.getD i defaultRow).deliveryEnd = Cell.missing) →
          (∀ e, (validate_ship_and_delivery_ranges df).lookup
              "delivery_start_after_end" = some e → (i + 2) ∉ e.indices)
            ∧ ∃ e, (validate_ship_and_delivery_ranges df).lookup
                "null_delivery_dates" = some e ∧ (i + 2) ∈ e.indices)
      ∧ (((df.getD i defaultRow).deliveryStart = Cell.missing
            ∨ (df.getD i defaultRow).shipStart = Cell.missing) →
          ∀ e, (validate_ship_and_delivery_ranges df).lookup
              "delivery_before_shipping" = some e → (i + 2) ∉ e.indices) := by
  refine ⟨?_, ?_, ?_, ?_⟩
  · intro hw
    refine ⟨?_, ?_, ?_⟩
    · intro e he
      rw [lookup_non_positive] at he
      refine lookup_if_not_mem df nonPositiveMask e i he ?_
      unfold nonPositiveMask numLe
      rw [hw]
    · intro e he
      rw [lookup_overweight] at he
      refine lookup_if_not_mem df (overweightMask OVERWEIGHT_USERS) e i he ?_
      unfold overweightMask numGe
      rw [hw]
      rfl
    · rw [lookup_null_weight]
      refine lookup_if_mem df nullWeightMask i hi ?_
      unfold nullWeightMask
      rw [hw]
      rfl
  · intro hs
    refine ⟨?_, ?_⟩
    · intro e he
      rw [lookup_ship_order] at he
      refine lookup_if_not_mem df shipOrderMask e i he ?_
      unfold shipOrderMask
      rcases hs with hs | hs
      · rw [hs]
        exact dateLtCell_missing_right _
      · rw [hs]
        exact dateLtCell_missing_left _
    · rw [lookup_null_ship]
      refine lookup_if_mem df nullShipMask i hi ?_
      unfold nullShipMask
      rcases hs with hs | hs
      · rw [hs]
        rfl
      · rw [hs]
        cases hxx : ((df.getD i defaultRow).shipStart == Cell.missing) <;> rfl
  · intro hs
    refine ⟨?_, ?_⟩
    · intro e he
      rw [lookup_delivery_order] at he
      refine lookup_if_not_mem df deliveryOrderMask e i he ?_
      unfold deliveryOrderMask
      rcases hs with hs | hs
      · rw [hs]
        exact dateLtCell_missing_right _
      · rw [hs]
        exact dateLtCell_missing_left _
    · rw [lookup_null_delivery]
      refine lookup_if_mem df nullDeliveryMask i hi ?_
      unfold nullDeliveryMask
      rcases hs with hs | hs
      · rw [hs]
        rfl
      · rw [hs]
        cases hxx : ((df.getD i defaultRow).deliveryStart == Cell.missing) <;>
          rfl
  · intro hs e he
    rw [lookup_delivery_before] at he
    refine lookup_if_not_mem df deliveryBeforeShipMask e i he ?_
    unfold deliveryBeforeShipMask
    rcases hs with hs | hs
    · rw [hs]
      exact dateLtCell_missing_left _
    · rw [hs]
      exact dateLtCell_missing_right _

/-- Witness for C9 at a one-row store whose cells are all missing: the row
lands in null_weight and is absent from the comparison defects. -/
theorem c9_missing_sentinels_witness :
    (∃ e, (validate_weight [defaultRow]).lookup "null_weight" = some e
        ∧ 2 ∈ e.indices)
      ∧ (∀ e, (validate_weight [defaultRow]).lookup "non_positive" = some e →
          2 ∉ e.indices)
      ∧ ∀ e, (validate_ship_and_delivery_ranges [defaultRow]).lookup
          "ship_start_after_end" = some e → 2 ∉ e.indices := by
  have h := c9_missing_sentinels [defaultRow] 0 (by decide)
  have h1 := h.1 (by decide)
  have h2 := h.2.1 (Or.inl (by decide))
  exact ⟨h1.2.2, h1.1, h2.1⟩

/-! ### Claim C10 -/

/-- C10: missing identifiers are mutual duplicates for the duplicate
detector: when at least two rows carry a missing primary reference, every
such row is reported under duplicate_primary_reference and under
null_primary_reference. -/
theorem c10_missing_duplicates (df : List Row) (i : Nat) (hi : i < df.length)
    (hmiss : (df.getD i defaultRow).primaryReference = Cell.missing)
    (h2 : 2 ≤ df.countP fun p => p.primaryReference == Cell.missing) :
    (∃ e, (validate_primary_reference df).lookup "duplicate_primary_reference"
        = some e ∧ (i + 2) ∈ e.indices)
      ∧ ∃ e, (validate_primary_reference df).lookup "null_primary_reference"
          = some e ∧ (i + 2) ∈ e.indices := by
  constructor
  · rw [lookup_dup_primary]
    refine lookup_if_mem df (dupPrimaryMask df) i hi ?_
    unfold dupPrimaryMask
    rw [hmiss]
    exact decide_eq_true h2
  · rw [lookup_null_primary]
    refine lookup_if_mem df nullPrimaryMask i hi ?_
    unfold nullPrimaryMask
    rw [hmiss]
    rfl

/-- Witness for C10 at a store of two rows with missing identifiers: both
critical defect kinds fire. -/
theorem c10_missing_duplicates_witness :
    (∃ e, (validate_primary_reference [defaultRow, defaultRow]).lookup
        "duplicate_primary_reference" = some e ∧ 2 ∈ e.indices)
      ∧ ∃ e, (validate_primary_reference [defaultRow, defaultRow]).lookup
          "null_primary_reference" = some e ∧ 2 ∈ e.indices :=
  c10_missing_duplicates [defaultRow, defaultRow] 0 (by decide) (by decide)
    (by decide)
